import Mathlib

/-! Verification of the hypertension decision-support core in `src/app.py`.

The four pure functions of the scoring core — `classify_bp`,
`calculate_risk_score`, `get_risk_category` and the recommendation block of
the Assessment Summary tab — are embedded as Lean definitions, and the
documented properties are settled against them.

Modelling choices:
* Python integers become `ℤ` (blood pressures, ages, scores).
* The BMI value, a Python float produced by `calculate_bmi`, becomes `ℚ`;
  the scorer only compares it against the integer thresholds 25 and 30,
  and those comparisons are exact on the rationals.
* The patient-data dictionary becomes a structure of `Option` fields;
  `data.get(key, default)` becomes `Option.getD`, and the truthiness test
  `if data.get(key):` on a boolean field becomes `Option.getD · false`.
* Python's substring test `pat in s` becomes `strContains s pat`, a
  structural scan over the character lists of the two strings.
-/

/-- Test whether `pat` starts `s`, character by character. -/
def startsWithL : List Char → List Char → Bool
  | _, [] => true
  | [], _ :: _ => false
  | c :: cs, p :: ps => c == p && startsWithL cs ps

/-- Test whether `pat` occurs contiguously inside `s`: the embedding of
Python's `pat in s` on the underlying character lists. -/
def containsSub : List Char → List Char → Bool
  | [], pat => pat.isEmpty
  | c :: cs, pat => startsWithL (c :: cs) pat || containsSub cs pat

/-- Python's substring operator `pat in s` on strings. -/
def strContains (s pat : String) : Bool :=
  containsSub s.toList pat.toList

/-- Embedding of `classify_bp(systolic, diastolic)` from `src/app.py`
(lines 75-87): a first-match-wins chain of threshold tests returning
`(label, tier)`. -/
def classify_bp (systolic diastolic : ℤ) : String × String :=
  if systolic < 120 ∧ diastolic < 80 then ("Normal", "low")
  else if systolic < 130 ∧ diastolic < 80 then ("Elevated", "moderate")
  else if (130 ≤ systolic ∧ systolic ≤ 139) ∨ (80 ≤ diastolic ∧ diastolic ≤ 89) then
    ("Stage 1 Hypertension", "moderate")
  else if 140 ≤ systolic ∨ 90 ≤ diastolic then ("Stage 2 Hypertension", "high")
  else if 180 ≤ systolic ∨ 120 ≤ diastolic then ("Hypertensive Crisis - EMERGENCY", "high")
  else ("Unknown", "moderate")

/-- The patient-data dictionary of `src/app.py`, restricted to the keys the
scoring core reads.  Every field is optional, matching a Python dict where
any key may be absent. -/
structure PatientData where
  age : Option ℤ
  bmi : Option ℚ
  diabetes : Option Bool
  cad : Option Bool
  ckd : Option Bool
  smoking : Option Bool
  systolic : Option ℤ
  diastolic : Option ℤ
deriving DecidableEq

/-- The age contribution of `calculate_risk_score` (`# Age factor` block):
an else-chain over the thresholds 65, 55, 45. -/
def ageScore (age : ℤ) : ℤ :=
  if 65 < age then 3 else if 55 < age then 2 else if 45 < age then 1 else 0

/-- The BMI contribution of `calculate_risk_score` (`# BMI factor` block). -/
def bmiScore (bmi : ℚ) : ℤ :=
  if 30 ≤ bmi then 2 else if 25 ≤ bmi then 1 else 0

/-- The blood-pressure contribution of `calculate_risk_score`
(`# BP classification` block): substring tests on the classification label. -/
def bpScore (bp_class : String) : ℤ :=
  if strContains bp_class "Crisis" then 5
  else if strContains bp_class "Stage 2" then 3
  else if strContains bp_class "Stage 1" then 2
  else 0

/-- Embedding of `calculate_risk_score(data)` from `src/app.py`
(lines 89-127): the sum of the age, BMI, comorbidity and blood-pressure
contributions, with the dictionary defaults `age 0`, `bmi 0`, falsy flags,
`systolic 120`, `diastolic 80`. -/
def calculate_risk_score (data : PatientData) : ℤ :=
  ageScore (data.age.getD 0)
  + bmiScore (data.bmi.getD 0)
  + (if data.diabetes.getD false then 3 else 0)
  + (if data.cad.getD false then 3 else 0)
  + (if data.ckd.getD false then 2 else 0)
  + (if data.smoking.getD false then 2 else 0)
  + bpScore (classify_bp (data.systolic.getD 120) (data.diastolic.getD 80)).1

/-- Embedding of `get_risk_category(score)` from `src/app.py`
(lines 129-138). -/
def get_risk_category (score : ℤ) : String × String :=
  if score ≤ 3 then ("Low Risk", "low")
  else if score ≤ 7 then ("Moderate Risk", "moderate")
  else if score ≤ 12 then ("High Risk", "high")
  else ("Very High Risk", "high")

/-- The emergency-referral action string (line 411 of `src/app.py`). -/
def emergencyAction : String := "🚨 **EMERGENCY REFERRAL** - Hypertensive crisis"

/-- The intensify-therapy action string (line 414). -/
def therapyAction : String := "💊 Start or intensify antihypertensive therapy"

/-- The weight-reduction action string (line 417). -/
def weightAction : String := "🏃 Weight reduction program"

/-- The smoking-cessation action string (line 420). -/
def smokingAction : String := "🚭 Smoking cessation counseling"

/-- The diabetes-management action string (line 423). -/
def diabetesAction : String := "🩸 Optimize diabetes management"

/-- The unconditional baseline-investigations action string (line 425). -/
def baselineAction : String :=
  "📋 Order basic investigations (CBC, LFT, KFT, Lipid Profile, HbA1c, TSH, ECG, Echo)"

/-- The secondary-hypertension screening action string (line 428). -/
def secondaryAction : String := "🔬 Screen for secondary hypertension"

/-- Embedding of the `actions` block of the Assessment Summary tab
(`src/app.py` lines 408-431): each rule is evaluated independently and its
action appended in the fixed source order.  `resistant_htn`, `early_onset`
and `malignant_htn` are the checkbox variables read directly (not through
the dict) in line 427. -/
def recommendations (data : PatientData) (risk_category : String)
    (resistant_htn early_onset malignant_htn : Bool) : List String :=
  (if 180 ≤ data.systolic.getD 0 ∨ 120 ≤ data.diastolic.getD 0 then [emergencyAction] else [])
  ++ (if risk_category = "High Risk" ∨ risk_category = "Very High Risk" then [therapyAction] else [])
  ++ (if 25 ≤ data.bmi.getD 0 then [weightAction] else [])
  ++ (if data.smoking.getD false then [smokingAction] else [])
  ++ (if data.diabetes.getD false then [diabetesAction] else [])
  ++ [baselineAction]
  ++ (if resistant_htn ∨ early_onset ∨ malignant_htn then [secondaryAction] else [])

/-- The seven action strings in their fixed priority order. -/
def priorityList : List String :=
  [emergencyAction, therapyAction, weightAction, smokingAction, diabetesAction,
   baselineAction, secondaryAction]

/-- The patient record of claim C2: age 70, BMI 31, diabetic, smoker,
BP 145/95, all other fields absent. -/
def c2Record : PatientData :=
  ⟨some 70, some 31, some true, none, none, some true, some 145, some 95⟩

/-- The empty patient record: every key absent. -/
def emptyRecord : PatientData :=
  ⟨none, none, none, none, none, none, none, none⟩

/-- Record with every absent field replaced by the dictionary default the
scorer uses: age 0, bmi 0, flags false, systolic 120, diastolic 80. -/
def fillDefaults (r : PatientData) : PatientData :=
  ⟨some (r.age.getD 0), some (r.bmi.getD 0), some (r.diabetes.getD false),
   some (r.cad.getD false), some (r.ckd.getD false), some (r.smoking.getD false),
   some (r.systolic.getD 120), some (r.diastolic.getD 80)⟩

/-- The age contribution is between 0 and 3. -/
theorem ageScore_bounds (a : ℤ) : 0 ≤ ageScore a ∧ ageScore a ≤ 3 := by
  unfold ageScore; split_ifs <;> omega

/-- The age contribution is monotone. -/
theorem ageScore_mono {a b : ℤ} (h : a ≤ b) : ageScore a ≤ ageScore b := by
  unfold ageScore; split_ifs <;> omega

/-- The BMI contribution is between 0 and 2. -/
theorem bmiScore_bounds (a : ℚ) : 0 ≤ bmiScore a ∧ bmiScore a ≤ 2 := by
  unfold bmiScore; split_ifs <;> omega

/-- The BMI contribution is monotone. -/
theorem bmiScore_mono {a b : ℚ} (h : a ≤ b) : bmiScore a ≤ bmiScore b := by
  unfold bmiScore
  split_ifs <;> first | omega | (exfalso; linarith)

/-- The blood-pressure contribution is non-negative. -/
theorem bpScore_nonneg (l : String) : 0 ≤ bpScore l := by
  unfold bpScore; split_ifs <;> omega

/-- Every label `classify_bp` can return: the Crisis branch is shadowed by
the Stage 2 branch, so the Crisis label is never among them. -/
theorem classify_bp_label_mem (s d : ℤ) :
    (classify_bp s d).1 ∈
      (["Normal", "Elevated", "Stage 1 Hypertension", "Stage 2 Hypertension",
        "Unknown"] : List String) := by
  unfold classify_bp
  split_ifs with h1 h2 h3 h4 h5
  · decide
  · decide
  · decide
  · decide
  · exfalso; omega
  · decide

/-- No label returned by `classify_bp` contains the substring "Crisis". -/
theorem classify_bp_no_crisis (s d : ℤ) :
    strContains (classify_bp s d).1 "Crisis" = false := by
  have h := classify_bp_label_mem s d
  simp only [List.mem_cons, List.mem_singleton, List.not_mem_nil, or_false] at h
  rcases h with h | h | h | h | h <;> rw [h] <;> decide

/-- Labels without the "Crisis" substring contribute at most 3. -/
theorem bpScore_le_three (l : String) (h : strContains l "Crisis" = false) :
    bpScore l ≤ 3 := by
  unfold bpScore
  rw [h]
  split_ifs <;> first | omega | simp_all

/-- C2: on the record {age 70, bmi 31, diabetes, smoking, systolic 145,
diastolic 95} with all other fields absent, `calculate_risk_score` returns
13 (3 age + 2 BMI + 3 diabetes + 2 smoking + 3 Stage 2 BP) and
`get_risk_category 13` returns ("Very High Risk", high). -/
theorem risk_score_c2_record :
    calculate_risk_score c2Record = 13
    ∧ get_risk_category 13 = ("Very High Risk", "high") := by
  constructor <;> decide

/-- C10: the default blood-pressure values are not scoring-neutral:
`calculate_risk_score` on the empty record returns 2, not 0, because the
defaults 120/80 are classified as ("Stage 1 Hypertension", moderate),
contributing +2. -/
theorem risk_score_empty_record :
    calculate_risk_score emptyRecord = 2
    ∧ classify_bp 120 80 = ("Stage 1 Hypertension", "moderate") := by
  constructor <;> decide

/-- C1 (counterexample): the concrete in-range input 185/85 has
systolic ≥ 180 yet is classified ("Stage 1 Hypertension", moderate), not
("Stage 2 Hypertension", high), because clause 3 (80 ≤ diastolic ≤ 89)
matches before clause 4. -/
theorem classify_bp_crisis_claim_false :
    ((70 : ℤ) ≤ 185 ∧ (185 : ℤ) ≤ 250) ∧ ((40 : ℤ) ≤ 85 ∧ (85 : ℤ) ≤ 150)
    ∧ (180 : ℤ) ≤ 185
    ∧ classify_bp 185 85 ≠ ("Stage 2 Hypertension", "high")
    ∧ classify_bp 185 85 = ("Stage 1 Hypertension", "moderate") := by
  refine ⟨by decide, by decide, by decide, by decide, by decide⟩

/-- C1 (amended): for every in-range input with systolic ≥ 180 or
diastolic ≥ 120, clause 3 may still match first: the result is
("Stage 1 Hypertension", moderate) when 130 ≤ systolic ≤ 139 or
80 ≤ diastolic ≤ 89, and ("Stage 2 Hypertension", high) otherwise; the
"Hypertensive Crisis" label is never returned, and
classify_bp(185, 125) = ("Stage 2 Hypertension", high). -/
theorem classify_bp_crisis_range (s d : ℤ)
    (hs : 70 ≤ s ∧ s ≤ 250) (hd : 40 ≤ d ∧ d ≤ 150)
    (h : 180 ≤ s ∨ 120 ≤ d) :
    ((130 ≤ s ∧ s ≤ 139) ∨ (80 ≤ d ∧ d ≤ 89) →
      classify_bp s d = ("Stage 1 Hypertension", "moderate"))
    ∧ (¬((130 ≤ s ∧ s ≤ 139) ∨ (80 ≤ d ∧ d ≤ 89)) →
      classify_bp s d = ("Stage 2 Hypertension", "high"))
    ∧ (classify_bp s d).1 ≠ "Hypertensive Crisis - EMERGENCY"
    ∧ classify_bp 185 125 = ("Stage 2 Hypertension", "high") := by
  by_cases hc : (130 ≤ s ∧ s ≤ 139) ∨ (80 ≤ d ∧ d ≤ 89)
  · have e : classify_bp s d = ("Stage 1 Hypertension", "moderate") := by
      unfold classify_bp
      rw [if_neg (by omega), if_neg (by omega), if_pos hc]
    exact ⟨fun _ => e, fun hnc => absurd hc hnc, by rw [e]; decide, by decide⟩
  · have e : classify_bp s d = ("Stage 2 Hypertension", "high") := by
      unfold classify_bp
      rw [if_neg (by omega), if_neg (by omega), if_neg hc, if_pos (by omega)]
    exact ⟨fun hcc => absurd hcc hc, fun _ => e, by rw [e]; decide, by decide⟩

/-- Witness for the amended C1: at the concrete input 185/125, clause 3
does not match and the result is ("Stage 2 Hypertension", high). -/
theorem classify_bp_crisis_range_witness :
    classify_bp 185 125 = ("Stage 2 Hypertension", "high")
    ∧ (classify_bp 185 125).1 ≠ "Hypertensive Crisis - EMERGENCY" :=
  ⟨(classify_bp_crisis_range 185 125 (by decide) (by decide) (by decide)).2.1
      (by decide),
   (classify_bp_crisis_range 185 125 (by decide) (by decide) (by decide)).2.2.1⟩

/-- C7: for every systolic in 70-250 and diastolic in 40-150, `classify_bp`
returns one of the five named categories and the "Unknown" fallback is
never reached. -/
theorem classify_bp_total (s d : ℤ)
    (hs : 70 ≤ s ∧ s ≤ 250) (hd : 40 ≤ d ∧ d ≤ 150) :
    ((classify_bp s d).1 = "Normal" ∨ (classify_bp s d).1 = "Elevated"
      ∨ (classify_bp s d).1 = "Stage 1 Hypertension"
      ∨ (classify_bp s d).1 = "Stage 2 Hypertension"
      ∨ (classify_bp s d).1 = "Hypertensive Crisis - EMERGENCY")
    ∧ (classify_bp s d).1 ≠ "Unknown" := by
  unfold classify_bp
  split_ifs with h1 h2 h3 h4 h5
  · exact ⟨by decide, by decide⟩
  · exact ⟨by decide, by decide⟩
  · exact ⟨by decide, by decide⟩
  · exact ⟨by decide, by decide⟩
  · exact ⟨by decide, by decide⟩
  · exfalso; omega

/-- Witness for C7 at the in-range input 120/80. -/
theorem classify_bp_total_witness :
    (classify_bp 120 80).1 ≠ "Unknown" :=
  (classify_bp_total 120 80 (by decide) (by decide)).2

/-- C4: `get_risk_category` maps scores to bands with inclusive upper
bounds — 3 is Low, 4 and 7 are Moderate, 8 is High, 13 is Very High — and
over all non-negative integers the four bands s ≤ 3, 4-7, 8-12, s ≥ 13 are
contiguous, exhaustive, and map to the four categories. -/
theorem get_risk_category_bands :
    get_risk_category 3 = ("Low Risk", "low")
    ∧ get_risk_category 4 = ("Moderate Risk", "moderate")
    ∧ get_risk_category 7 = ("Moderate Risk", "moderate")
    ∧ get_risk_category 8 = ("High Risk", "high")
    ∧ get_risk_category 13 = ("Very High Risk", "high")
    ∧ ∀ s : ℤ, 0 ≤ s →
        (s ≤ 3 → get_risk_category s = ("Low Risk", "low"))
        ∧ (4 ≤ s ∧ s ≤ 7 → get_risk_category s = ("Moderate Risk", "moderate"))
        ∧ (8 ≤ s ∧ s ≤ 12 → get_risk_category s = ("High Risk", "high"))
        ∧ (13 ≤ s → get_risk_category s = ("Very High Risk", "high"))
        ∧ get_risk_category s ∈
            ([("Low Risk", "low"), ("Moderate Risk", "moderate"),
              ("High Risk", "high"), ("Very High Risk", "high")] :
              List (String × String)) := by
  refine ⟨by decide, by decide, by decide, by decide, by decide, ?_⟩
  intro s hs
  unfold get_risk_category
  split_ifs with h1 h2 h3 <;>
    refine ⟨fun hc => ?_, fun hc => ?_, fun hc => ?_, fun hc => ?_, ?_⟩ <;>
    first | rfl | (exfalso; omega) | decide

/-- Witness for C4 at score 5: the band 4-7 gives "Moderate Risk". -/
theorem get_risk_category_bands_witness :
    get_risk_category 5 = ("Moderate Risk", "moderate") :=
  (get_risk_category_bands.2.2.2.2.2 5 (by decide)).2.1 (by decide)

/-- C5: the scorer is insensitive to missing keys: on every record, possibly
missing any subset of fields, the score equals the score of the record with
the missing fields filled in as the defaults age 0, bmi 0, flags false,
systolic 120, diastolic 80 (totality is intrinsic: `calculate_risk_score`
is a total Lean function with no error path). -/
theorem risk_score_fill_defaults (r : PatientData) :
    calculate_risk_score r = calculate_risk_score (fillDefaults r) := by
  obtain ⟨age, bmi, dia, cad, ckd, smo, sys, dis⟩ := r
  rfl

/-- C8: the score is purely additive from 0, so it is non-negative on every
record, with no clamping. -/
theorem risk_score_nonneg (data : PatientData) :
    0 ≤ calculate_risk_score data := by
  unfold calculate_risk_score
  have h1 := ageScore_bounds (data.age.getD 0)
  have h2 := bmiScore_bounds (data.bmi.getD 0)
  have h3 := bpScore_nonneg
    (classify_bp (data.systolic.getD 120) (data.diastolic.getD 80)).1
  split_ifs <;> omega

/-- C9: no label `classify_bp` returns contains the substring "Crisis", so
the +5 branch of the scorer never fires and every score is at most
18 = 3 + 2 + 3 + 3 + 2 + 2 + 3. -/
theorem risk_score_le_eighteen (s d : ℤ) (data : PatientData) :
    strContains (classify_bp s d).1 "Crisis" = false
    ∧ calculate_risk_score data ≤ 18 := by
  refine ⟨classify_bp_no_crisis s d, ?_⟩
  unfold calculate_risk_score
  have h1 := ageScore_bounds (data.age.getD 0)
  have h2 := bmiScore_bounds (data.bmi.getD 0)
  have h3 := bpScore_le_three
    (classify_bp (data.systolic.getD 120) (data.diastolic.getD 80)).1
    (classify_bp_no_crisis (data.systolic.getD 120) (data.diastolic.getD 80))
  split_ifs <;> omega

/-- C3 (counterexample): the score is not monotone in systolic or
diastolic.  Raising systolic from 120 to 135 at diastolic 95 drops the
score from 3 to 2 (BP reclassifies Stage 2 → Stage 1), and raising
diastolic from 40 to 85 at systolic 150 likewise drops it from 3 to 2. -/
theorem risk_score_not_mono_in_bp :
    (120 : ℤ) < 135
    ∧ calculate_risk_score ⟨none, none, none, none, none, none, some 120, some 95⟩ = 3
    ∧ calculate_risk_score ⟨none, none, none, none, none, none, some 135, some 95⟩ = 2
    ∧ (40 : ℤ) < 85
    ∧ calculate_risk_score ⟨none, none, none, none, none, none, some 150, some 40⟩ = 3
    ∧ calculate_risk_score ⟨none, none, none, none, none, none, some 150, some 85⟩ = 2 := by
  refine ⟨by decide, by decide, by decide, by decide, by decide, by decide⟩

/-- C3 (amended): the score is monotonically non-decreasing in age, in BMI,
and in flipping any of diabetes, CAD, CKD, smoking from false to true, all
other fields held fixed; monotonicity fails for systolic and diastolic. -/
theorem risk_score_mono (r : PatientData) :
    (∀ a b : ℤ, a ≤ b →
      calculate_risk_score {r with age := some a}
        ≤ calculate_risk_score {r with age := some b})
    ∧ (∀ a b : ℚ, a ≤ b →
      calculate_risk_score {r with bmi := some a}
        ≤ calculate_risk_score {r with bmi := some b})
    ∧ calculate_risk_score {r with diabetes := some false}
        ≤ calculate_risk_score {r with diabetes := some true}
    ∧ calculate_risk_score {r with cad := some false}
        ≤ calculate_risk_score {r with cad := some true}
    ∧ calculate_risk_score {r with ckd := some false}
        ≤ calculate_risk_score {r with ckd := some true}
    ∧ calculate_risk_score {r with smoking := some false}
        ≤ calculate_risk_score {r with smoking := some true} := by
  obtain ⟨age, bmi, dia, cad, ckd, smo, sys, dis⟩ := r
  refine ⟨fun a b h => ?_, fun a b h => ?_, ?_, ?_, ?_, ?_⟩ <;>
    simp only [calculate_risk_score, Option.getD_some] <;>
    [skip; skip; simp; simp; simp; simp]
  · have := ageScore_mono h
    linarith
  · have := bmiScore_mono h
    linarith

/-- Witness for the amended C3: raising age 46 → 70 on the otherwise empty
record does not decrease the score. -/
theorem risk_score_mono_witness :
    calculate_risk_score {emptyRecord with age := some 46}
      ≤ calculate_risk_score {emptyRecord with age := some 70} :=
  (risk_score_mono emptyRecord).1 46 70 (by decide)

/-- C6: whenever the record has systolic ≥ 180 or diastolic ≥ 120 (via the
dict defaults of the actions block, `get('systolic', 0)`), the emergency
referral action is first in the recommendation list, for every combination
of the other flags; the whole list is a sublist of the fixed priority order
— emergency, therapy, weight, smoking cessation, diabetes, baseline,
secondary screening — and the baseline action is always present. -/
theorem recommendations_order (data : PatientData) (rc : String)
    (rh eo mh : Bool) :
    (180 ≤ data.systolic.getD 0 ∨ 120 ≤ data.diastolic.getD 0 →
      (recommendations data rc rh eo mh).head? = some emergencyAction)
    ∧ (recommendations data rc rh eo mh).Sublist priorityList
    ∧ baselineAction ∈ recommendations data rc rh eo mh := by
  refine ⟨fun h => ?_, ?_, ?_⟩
  · unfold recommendations
    rw [if_pos h]
    rfl
  · unfold recommendations priorityList
    split_ifs <;> decide
  · unfold recommendations
    split_ifs <;> decide

/-- Witness for C6: with systolic 185 and diastolic 125 recorded and all
flags clear, the emergency referral action heads the list. -/
theorem recommendations_order_witness :
    (recommendations ⟨none, none, none, none, none, none, some 185, some 125⟩
        "Low Risk" false false false).head? = some emergencyAction :=
  (recommendations_order ⟨none, none, none, none, none, none, some 185, some 125⟩
    "Low Risk" false false false).1 (by decide)
